import Mathlib

/-!
Verification development for the cache / batch-processing subsystem of the
repository (source file: backend/nlp/utils/cache_manager.py).

The Python source is shallowly embedded: the in-process memory cache is an
association list keyed by strings, wall-clock time is an explicit natural
number parameter (the source reads `time.time()`), Python values are modelled
by `Option V` where `none` stands for Python `None`, and fallible calls return
`Except`.  The external Redis client (an external library, not repository
code) is modelled by its narrow contract: each operation either succeeds,
mutating remote data, or raises, which we represent with a `failing` flag.
-/

set_option maxRecDepth 100000

namespace CacheSpec

/-! ### Model of the Python values that flow through the cache key deriver -/

/-- Python values as they appear in cached-call argument tuples: the model
covers ints and strings, enough to exercise the key deriver. -/
inductive PyVal : Type
  | int : Int → PyVal
  | str : String → PyVal
  deriving DecidableEq, Repr

/-- Python repr of a value: ints print decimally, strings in single quotes
(the model assumes the string needs no escaping, true of all inputs used). -/
def pyReprVal : PyVal → String
  | .int n => toString n
  | .str s => "\x27" ++ s ++ "\x27"

/-- Python str() of an argument tuple: "()", "(x,)" for singletons,
"(a, b, ...)" otherwise, elements shown by repr. -/
def pyStrTuple (args : List PyVal) : String :=
  match args with
  | [] => "()"
  | [a] => "(" ++ pyReprVal a ++ ",)"
  | _ => "(" ++ String.intercalate ", " (args.map pyReprVal) ++ ")"

/-- Python str() of a keyword-argument dict.  Python dicts preserve insertion
order (CPython 3.7+), so the printed order is the order in which the keyword
arguments were supplied; the model keeps kwargs as an ordered list of
name/value pairs for exactly that reason. -/
def pyStrDict (kwargs : List (String × PyVal)) : String :=
  "\x7b" ++
    String.intercalate ", "
      (kwargs.map (fun kv => "\x27" ++ kv.1 ++ "\x27: " ++ pyReprVal kv.2)) ++
  "\x7d"

/-! ### MD5 (RFC 1321), used by `_generate_cache_key` via `hashlib.md5` -/

/-- Reduce modulo 2^32 (machine-word wraparound). -/
def m32 (x : Nat) : Nat := x % 4294967296

/-- 32-bit left rotation. -/
def rotl32 (x s : Nat) : Nat := m32 (x <<< s) ||| (x >>> (32 - s))

/-- 32-bit bitwise complement (argument assumed < 2^32). -/
def not32 (x : Nat) : Nat := 4294967295 ^^^ x

/-- MD5 auxiliary function F. -/
def mdF (b c d : Nat) : Nat := (b &&& c) ||| (not32 b &&& d)

/-- MD5 auxiliary function G. -/
def mdG (b c d : Nat) : Nat := (b &&& d) ||| (c &&& not32 d)

/-- MD5 auxiliary function H. -/
def mdH (b c d : Nat) : Nat := b ^^^ c ^^^ d

/-- MD5 auxiliary function I. -/
def mdI (b c d : Nat) : Nat := c ^^^ (b ||| not32 d)

/-- MD5 sine-derived constant table K (RFC 1321). -/
def mdK : List Nat :=
  [0xd76aa478, 0xe8c7b756, 0x242070db, 0xc1bdceee,
   0xf57c0faf, 0x4787c62a, 0xa8304613, 0xfd469501,
   0x698098d8, 0x8b44f7af, 0xffff5bb1, 0x895cd7be,
   0x6b901122, 0xfd987193, 0xa679438e, 0x49b40821,
   0xf61e2562, 0xc040b340, 0x265e5a51, 0xe9b6c7aa,
   0xd62f105d, 0x02441453, 0xd8a1e681, 0xe7d3fbc8,
   0x21e1cde6, 0xc33707d6, 0xf4d50d87, 0x455a14ed,
   0xa9e3e905, 0xfcefa3f8, 0x676f02d9, 0x8d2a4c8a,
   0xfffa3942, 0x8771f681, 0x6d9d6122, 0xfde5380c,
   0xa4beea44, 0x4bdecfa9, 0xf6bb4b60, 0xbebfbc70,
   0x289b7ec6, 0xeaa127fa, 0xd4ef3085, 0x04881d05,
   0xd9d4d039, 0xe6db99e5, 0x1fa27cf8, 0xc4ac5665,
   0xf4292244, 0x432aff97, 0xab9423a7, 0xfc93a039,
   0x655b59c3, 0x8f0ccc92, 0xffeff47d, 0x85845dd1,
   0x6fa87e4f, 0xfe2ce6e0, 0xa3014314, 0x4e0811a1,
   0xf7537e82, 0xbd3af235, 0x2ad7d2bb, 0xeb86d391]

/-- MD5 per-round left-rotation amounts. -/
def mdS : List Nat :=
  [7, 12, 17, 22, 7, 12, 17, 22, 7, 12, 17, 22, 7, 12, 17, 22,
   5, 9, 14, 20, 5, 9, 14, 20, 5, 9, 14, 20, 5, 9, 14, 20,
   4, 11, 16, 23, 4, 11, 16, 23, 4, 11, 16, 23, 4, 11, 16, 23,
   6, 10, 15, 21, 6, 10, 15, 21, 6, 10, 15, 21, 6, 10, 15, 21]

/-- MD5 chaining state: four 32-bit words. -/
structure MD5State where
  a : Nat
  b : Nat
  c : Nat
  d : Nat
  deriving DecidableEq, Repr

/-- Little-endian 32-bit word `g` of a 64-byte block. -/
def leWord (block : List Nat) (g : Nat) : Nat :=
  block.getD (4 * g) 0 + 256 * block.getD (4 * g + 1) 0 +
    65536 * block.getD (4 * g + 2) 0 + 16777216 * block.getD (4 * g + 3) 0

/-- One of the 64 MD5 operations (round index `i`). -/
def md5step (block : List Nat) (st : MD5State) (i : Nat) : MD5State :=
  let fg : Nat × Nat :=
    if i < 16 then (mdF st.b st.c st.d, i)
    else if i < 32 then (mdG st.b st.c st.d, (5 * i + 1) % 16)
    else if i < 48 then (mdH st.b st.c st.d, (3 * i + 5) % 16)
    else (mdI st.b st.c st.d, (7 * i) % 16)
  let tmp := m32 (fg.1 + st.a + mdK.getD i 0 + leWord block fg.2)
  ⟨st.d, m32 (st.b + rotl32 tmp (mdS.getD i 0)), st.b, st.c⟩

/-- Compress one 64-byte block into the chaining state. -/
def md5compress (st : MD5State) (block : List Nat) : MD5State :=
  let f := (List.range 64).foldl (md5step block) st
  ⟨m32 (st.a + f.a), m32 (st.b + f.b), m32 (st.c + f.c), m32 (st.d + f.d)⟩

/-- Process the padded byte stream 64 bytes at a time; `n` is the number of
64-byte blocks remaining (the padded length is always a multiple of 64). -/
def md5blocks : Nat → MD5State → List Nat → MD5State
  | 0, st, _ => st
  | n + 1, st, bs => md5blocks n (md5compress st (bs.take 64)) (bs.drop 64)

/-- MD5 padding: append 0x80, zero bytes to 56 mod 64, then the original bit
length as a little-endian 64-bit quantity. -/
def md5pad (msg : List Nat) : List Nat :=
  let zeros := (56 + 64 - (msg.length + 1) % 64) % 64
  let bitlen := (8 * msg.length) % 18446744073709551616
  msg ++ [128] ++ List.replicate zeros 0 ++
    (List.range 8).map (fun i => (bitlen >>> (8 * i)) % 256)

/-- Bytes of a string under UTF-8; all strings fed to the hash in this
development are ASCII, where the byte sequence is the code-point sequence. -/
def strBytes (s : String) : List Nat := s.data.map Char.toNat

/-- Hex digit characters. -/
def hexChar (n : Nat) : Char := "0123456789abcdef".data.getD n 'x'

/-- Two-digit lowercase hex of a byte. -/
def byteHex (b : Nat) : String := String.mk [hexChar (b / 16 % 16), hexChar (b % 16)]

/-- Little-endian hex rendering of a 32-bit word, as in an MD5 digest. -/
def wordHexLE (w : Nat) : String :=
  byteHex (w % 256) ++ byteHex (w / 256 % 256) ++
    byteHex (w / 65536 % 256) ++ byteHex (w / 16777216 % 256)

/-- Lowercase hex MD5 digest of a string, as Python
`hashlib.md5(s.encode()).hexdigest()` computes it. -/
def md5hex (s : String) : String :=
  let padded := md5pad (strBytes s)
  let st := md5blocks (padded.length / 64)
    ⟨0x67452301, 0xefcdab89, 0x98badcfe, 0x10325476⟩ padded
  wordHexLE st.a ++ wordHexLE st.b ++ wordHexLE st.c ++ wordHexLE st.d

example : md5hex "" = "d41d8cd98f00b204e9800998ecf8427e" := by decide

example : md5hex "abc" = "900150983cd24fb0d6963f7d28e17f72" := by decide

example :
    md5hex "The quick brown fox jumps over the lazy dog" =
      "9e107d9d372bb6826bd81d3542a419d6" := by decide

/-! ### Dictionary model

Python dicts preserve insertion order; assignment to an existing key updates
in place, `del` removes the binding.  The model is an association list with
first-match lookup. -/

variable {V M A B E : Type}

/-- Lookup in a Python-dict model (dict.get). -/
def dictGet (mc : List (String × B)) (k : String) : Option B :=
  match mc with
  | [] => none
  | (k0, v0) :: rest => if k0 = k then some v0 else dictGet rest k

/-- Assignment `d[k] = v`: update in place when present, else append. -/
def dictSet (mc : List (String × B)) (k : String) (v : B) : List (String × B) :=
  match mc with
  | [] => [(k, v)]
  | (k0, v0) :: rest => if k0 = k then (k, v) :: rest else (k0, v0) :: dictSet rest k v

/-- Deletion `del d[k]`: removes the (first) binding of `k`. -/
def dictDel (mc : List (String × B)) (k : String) : List (String × B) :=
  match mc with
  | [] => []
  | (k0, v0) :: rest => if k0 = k then rest else (k0, v0) :: dictDel rest k

/-! ### The cache data model (CacheManager.__init__, lines 15-31)

Python values are `Option V` with `none` playing Python `None`; wall-clock
time is an explicit `Nat` parameter standing for `time.time()`. -/

/-- A memory-cache entry: the dict `{'value': ..., 'expire_time': time.time() + ttl}`. -/
structure CacheEntry (V : Type) where
  value : Option V
  expire_time : Nat
  deriving DecidableEq, Repr

/-- State of the external Redis store, modelled by its narrow client contract
(the redis library is an external collaborator, not repository code): when
`failing` is set every client call raises (connectivity/protocol error),
otherwise calls succeed against the remote key/value data.  Values stored are
the pickle round-trip of the Python value; remote TTL bookkeeping is
delegated to the server and not modelled. -/
structure RedisState (V : Type) where
  failing : Bool
  data : List (String × Option V)
  deriving DecidableEq

/-- redis.setex: store serialized value with server-side TTL, or raise. -/
def redisSetex (r : RedisState V) (key : String) (_ttl : Nat) (v : Option V) :
    Except Unit (RedisState V) :=
  if r.failing then .error () else .ok { r with data := dictSet r.data key v }

/-- redis.get: fetch serialized value (`none` = key absent), or raise. -/
def redisGet (r : RedisState V) (key : String) : Except Unit (Option (Option V)) :=
  if r.failing then .error () else .ok (dictGet r.data key)

/-- redis.delete, or raise. -/
def redisDel (r : RedisState V) (key : String) : Except Unit (RedisState V) :=
  if r.failing then .error () else .ok { r with data := dictDel r.data key }

/-- redis.flushdb, or raise. -/
def redisFlush (r : RedisState V) : Except Unit (RedisState V) :=
  if r.failing then .error () else .ok { r with data := [] }

/-- The cache backing store: `self.memory_cache` dict or `self.redis_client`. -/
inductive Store (V : Type) : Type
  | memory (mc : List (String × CacheEntry V))
  | redis (r : RedisState V)
  deriving DecidableEq

/-- CacheManager state: the configured default TTL (`self.ttl`, default 3600)
and the backing store selected by `self.cache_type`. -/
structure CacheManager (V : Type) where
  ttl : Nat
  store : Store V
  deriving DecidableEq

/-- Python `x or default` on an optional integer: `None` and `0` are falsy
and yield the default (source idiom `ttl = ttl or self.ttl`). -/
def pyOr (ttl : Option Nat) (dflt : Nat) : Nat :=
  match ttl with
  | none => dflt
  | some t => if t = 0 then dflt else t

/-! ### CacheManager operations (lines 60-168) -/

/-- set_cache (lines 60-90): on redis, pickle and setex inside try/except
(False on error); on memory, plain dict assignment of value and
`expire_time = time.time() + ttl` (cannot raise, so always True). -/
def set_cache (m : CacheManager V) (key : String) (value : Option V)
    (ttl : Option Nat) (now : Nat) : Bool × CacheManager V :=
  let t := pyOr ttl m.ttl
  match m.store with
  | .redis r =>
      match redisSetex r key t value with
      | .ok r2 => (true, { m with store := .redis r2 })
      | .error _ => (false, m)
  | .memory mc =>
      (true, { m with store := .memory (dictSet mc key ⟨value, now + t⟩) })

/-- get_cache (lines 92-124): on redis, get and unpickle inside try/except
(None on error; present pickled bytes are truthy, so a stored Python `None`
is returned as `None`); on memory, a live entry (`now < expire_time`) yields
its value, an expired one is deleted and `None` returned (lazy expiry),
an absent key yields `None`. -/
def get_cache (m : CacheManager V) (key : String) (now : Nat) :
    Option V × CacheManager V :=
  match m.store with
  | .redis r =>
      match redisGet r key with
      | .ok (some v) => (v, m)
      | .ok none => (none, m)
      | .error _ => (none, m)
  | .memory mc =>
      match dictGet mc key with
      | some item =>
          if now < item.expire_time then (item.value, m)
          else (none, { m with store := .memory (dictDel mc key) })
      | none => (none, m)

/-- delete_cache (lines 126-148): redis delete inside try/except (False on
error); on memory, conditional `del` (cannot raise, always True). -/
def delete_cache (m : CacheManager V) (key : String) : Bool × CacheManager V :=
  match m.store with
  | .redis r =>
      match redisDel r key with
      | .ok r2 => (true, { m with store := .redis r2 })
      | .error _ => (false, m)
  | .memory mc =>
      let mc2 := if (dictGet mc key).isSome then dictDel mc key else mc
      (true, { m with store := .memory mc2 })

/-- clear_cache (lines 150-168): flushdb / dict.clear, False on error. -/
def clear_cache (m : CacheManager V) : Bool × CacheManager V :=
  match m.store with
  | .redis r =>
      match redisFlush r with
      | .ok r2 => (true, { m with store := .redis r2 })
      | .error _ => (false, m)
  | .memory _ => (true, { m with store := .memory [] })

/-- The memory-backend part of get_cache_stats (lines 249-253): entry count
`len(self.memory_cache)` and the first ten keys.  The redis branch reports
remote-server info (version, clients, memory), which has no entry count, so
the model returns `none` there. -/
structure CacheStats where
  cache_size : Nat
  cache_keys : List String
  deriving DecidableEq

/-- get_cache_stats (lines 226-255), restricted to the per-entry statistics
of the in-process store. -/
def get_cache_stats (m : CacheManager V) : Option CacheStats :=
  match m.store with
  | .memory mc => some ⟨mc.length, (mc.map Prod.fst).take 10⟩
  | .redis _ => none

/-! ### Cache key derivation (_generate_cache_key, lines 205-224) -/

/-- _generate_cache_key: `args_str = str(args) + str(kwargs)`, then
`hashlib.md5(f"{key_prefix}{func_name}:{args_str}".encode()).hexdigest()`.
Keyword arguments are the ordered name/value list of the Python dict
(insertion order). -/
def _generate_cache_key (func_name : String) (args : List PyVal)
    (kwargs : List (String × PyVal)) (keyPfx : String) : String :=
  let args_str := pyStrTuple args ++ pyStrDict kwargs
  let cache_key := keyPfx ++ func_name ++ ":" ++ args_str
  md5hex cache_key

/-- A Python call's arguments: positional tuple plus the keyword dict in its
insertion order. -/
structure PyArgs where
  args : List PyVal
  kwargs : List (String × PyVal)
  deriving DecidableEq

/-! ### The memoizing decorator (cache_decorator, lines 170-203) -/

/-- One call of the cache_decorator wrapper (lines 183-199).  The wrapped
function is a Python callable: it either returns a value (`Option V`, `none`
being Python `None`) or raises `e`.  The wrapper derives the key, tries
`get_cache`, returns a cached value when it `is not None`, otherwise invokes
`func` (whose exception, if any, propagates — there is no try around it) and
on success stores the result via `set_cache(key, result, ttl or self.ttl)`.
Returns (call outcome, cache state afterwards, whether `func` was invoked);
the third component is bookkeeping for stating invocation counts, not part
of the source. -/
def cache_decorator (m : CacheManager V) (ttl : Option Nat) (keyPfx : String)
    (func_name : String) (f : PyArgs → Except E (Option V)) (a : PyArgs)
    (now : Nat) : Except E (Option V) × CacheManager V × Bool :=
  let cache_key := _generate_cache_key func_name a.args a.kwargs keyPfx
  let looked := get_cache m cache_key now
  match looked.1 with
  | some v => (.ok (some v), looked.2, false)
  | none =>
      match f a with
      | .error e => (.error e, looked.2, true)
      | .ok result =>
          let stored := set_cache looked.2 cache_key result (some (pyOr ttl m.ttl)) now
          (.ok result, stored.2, true)

/-- Two successive calls of the wrapper with the same arguments, at times
`t1` and `t2`; returns both outcomes, the final state, and the number of
times the underlying function was invoked. -/
def callTwice (m : CacheManager V) (ttl : Option Nat) (keyPfx : String)
    (func_name : String) (f : PyArgs → Except E (Option V)) (a : PyArgs)
    (t1 t2 : Nat) :
    Except E (Option V) × Except E (Option V) × CacheManager V × Nat :=
  let c1 := cache_decorator m ttl keyPfx func_name f a t1
  let c2 := cache_decorator c1.2.1 ttl keyPfx func_name f a t2
  (c1.1, c2.1, c2.2.1, (if c1.2.2 then 1 else 0) + (if c2.2.2 then 1 else 0))

/-! ### ModelCacheManager (lines 283-375) -/

/-- A model-cache entry: `{'model': ..., 'expire_time': time.time() + (ttl or self.ttl)}`. -/
structure ModelEntry (M : Type) where
  model : M
  expire_time : Nat
  deriving DecidableEq

/-- ModelCacheManager state: the inherited default TTL and the dedicated
`self.model_cache` dict (the inherited store is untouched by the model
operations and omitted). -/
structure ModelCacheManager (M : Type) where
  ttl : Nat
  model_cache : List (String × ModelEntry M)
  deriving DecidableEq

/-- cache_model (lines 297-320): dict assignment with
`expire_time = time.time() + (ttl or self.ttl)`; assignment cannot raise, so
the except branch is unreachable and the result is always True. -/
def cache_model (mm : ModelCacheManager M) (model_name : String) (model : M)
    (ttl : Option Nat) (now : Nat) : Bool × ModelCacheManager M :=
  (true,
    { mm with model_cache :=
        dictSet mm.model_cache model_name ⟨model, now + pyOr ttl mm.ttl⟩ })

/-- get_model (lines 322-346): live entry returns the stored handle, expired
entry is deleted and None returned, absent name returns None. -/
def get_model (mm : ModelCacheManager M) (model_name : String) (now : Nat) :
    Option M × ModelCacheManager M :=
  match dictGet mm.model_cache model_name with
  | some info =>
      if now < info.expire_time then (some info.model, mm)
      else (none, { mm with model_cache := dictDel mm.model_cache model_name })
  | none => (none, mm)

/-! ### BatchProcessingManager (lines 377-439)

The thread pool runs `process_func(item, *args, **kwargs)` for each item; the
code then iterates the futures **in submission order** and calls
`future.result(timeout)` on each, appending the value on success and `None`
when the future raises (task exception or per-task timeout).  A task's
outcome is therefore a deterministic function of its item, independent of
completion order; it is modelled as `Except Unit (Option V)`, where `error`
covers both an exception inside the task and a timeout.  After
`executor.shutdown`, `submit` raises RuntimeError, which the outer
try/except turns into the empty-list return (lines 429-431). -/

/-- Executor state: construction parameters and whether shutdown was called. -/
structure BatchProcessingManager where
  max_workers : Nat
  timeout : Nat
  isShutdown : Bool
  deriving DecidableEq

/-- BatchProcessingManager construction (lines 380-395). -/
def BatchProcessingManager.init (max_workers : Nat := 4) (timeout : Nat := 30) :
    BatchProcessingManager :=
  ⟨max_workers, timeout, false⟩

/-- The result-collection loop (lines 418-425): iterate futures in submission
order; on success append the task's value, on exception or timeout append
None and continue. -/
def collectLoop : List (Except Unit (Option V)) → List (Option V)
  | [] => []
  | fut :: rest =>
      (match fut with
       | .ok r => r
       | .error _ => none) :: collectLoop rest

/-- process_batch (lines 397-431): submit one task per item (in order), then
collect results in submission order with per-item failure isolation; if the
executor has been shut down, `submit` raises and the outer handler returns
the empty list. -/
def process_batch (bpm : BatchProcessingManager) (items : List A)
    (f : A → Except Unit (Option V)) : List (Option V) :=
  if bpm.isShutdown then []
  else collectLoop (items.map f)

/-- The external ThreadPoolExecutor.shutdown(wait=True) contract: drains the
workers and marks the executor shut down; CPython documents it as safe to
call repeatedly, and any raise would be swallowed by the source's
try/except. -/
def executorShutdown (b : BatchProcessingManager) :
    Except Unit BatchProcessingManager :=
  .ok { b with isShutdown := true }

/-- BatchProcessingManager.shutdown (lines 433-439): call the executor's
shutdown inside try/except (errors logged, never re-raised), so the
operation is total. -/
def shutdown (b : BatchProcessingManager) : BatchProcessingManager :=
  match executorShutdown b with
  | .ok b2 => b2
  | .error _ => b

/-! ### Instrumentation wrappers (lines 441-504) -/

/-- performance_monitor (lines 441-469): sample the clock, run the function
(a raise propagates — nothing catches it, and the log line is never
reached), log the duration, return the result unchanged.  The two clock
samples are explicit parameters; the second component is the logged duration
(`none` when the call raised before the log line). -/
def performance_monitor (start_time end_time : Nat)
    (f : A → Except E B) (a : A) : Except E B × Option Nat :=
  match f a with
  | .ok result => (.ok result, some (end_time - start_time))
  | .error e => (.error e, none)

/-- memory_monitor (lines 471-504): sample process resident memory before and
after, log the delta, return the result unchanged, with raises propagating
exactly as in performance_monitor. -/
def memory_monitor (start_memory end_memory : Nat)
    (f : A → Except E B) (a : A) : Except E B × Option Int :=
  match f a with
  | .ok result => (.ok result, some ((end_memory : Int) - (start_memory : Int)))
  | .error e => (.error e, none)

/-! ### Helper lemmas about the dictionary model and the TTL idiom -/

theorem dictGet_dictSet_self (mc : List (String × B)) (k : String) (v : B) :
    dictGet (dictSet mc k v) k = some v := by
  induction mc with
  | nil => simp [dictSet, dictGet]
  | cons hd tl ih =>
      obtain ⟨k0, v0⟩ := hd
      by_cases h : k0 = k <;> simp [dictSet, dictGet, h, ih]

theorem dictDel_length (mc : List (String × B)) (k : String)
    (h : (dictGet mc k).isSome) : (dictDel mc k).length + 1 = mc.length := by
  induction mc with
  | nil => simp [dictGet] at h
  | cons hd tl ih =>
      obtain ⟨k0, v0⟩ := hd
      by_cases hk : k0 = k
      · simp [dictDel, hk]
      · simp [dictGet, hk] at h
        simp [dictDel, hk, ih h]

theorem pyOr_pyOr (ttl : Option Nat) (d : Nat) :
    pyOr (some (pyOr ttl d)) d = pyOr ttl d := by
  cases ttl with
  | none => by_cases h : d = 0 <;> simp [pyOr, h]
  | some t => by_cases h : t = 0 <;> by_cases hd : d = 0 <;> simp [pyOr, h, hd]

/-- The result-collection loop is positionally the pointwise handling of the
task outcomes. -/
def futureResult : Except Unit (Option V) → Option V
  | .ok r => r
  | .error _ => none

theorem collectLoop_eq_map (l : List (Except Unit (Option V))) :
    collectLoop l = l.map futureResult := by
  induction l with
  | nil => rfl
  | cons fut rest ih =>
      cases fut <;> simp [collectLoop, futureResult, ih]

theorem process_batch_eq_map (bpm : BatchProcessingManager) (items : List A)
    (f : A → Except Unit (Option V)) (hrun : bpm.isShutdown = false) :
    process_batch bpm items f = items.map (fun it => futureResult (f it)) := by
  simp [process_batch, hrun, collectLoop_eq_map]

/-- Sanity check mirroring the spec scenario: a memory cache hit before the
TTL elapses and a lazy-expiry miss after it. -/
example :
    (get_cache (⟨3600, .memory [("x", ⟨some (.int 42), 2⟩)]⟩ : CacheManager PyVal)
      "x" 1).1 = some (.int 42) := by decide

example :
    (get_cache (⟨3600, .memory [("x", ⟨some (.int 42), 2⟩)]⟩ : CacheManager PyVal)
      "x" 3).1 = none := by decide

/-- Sanity check against Python: the embedded key deriver reproduces
hashlib.md5 digests computed by the reference implementation. -/
example :
    _generate_cache_key "f" [] [("a", .int 1), ("b", .int 2)] "" =
      "dd236f57bc2ea44d8019d4967c71d513" := by decide

example :
    _generate_cache_key "f" [] [("b", .int 2), ("a", .int 1)] "" =
      "e4c273dcb1098153d0eb4c398babb9fc" := by decide

example :
    _generate_cache_key "g" [.int 1] [] "" =
      "468f461f72578d4d90d75a6868fd51f7" := by decide

/-! ### Claims -/

/-- C2: the spec requires `_generate_cache_key` to derive equal keys for
logically equal keyword-argument sets regardless of the order in which the
keyword arguments are supplied.  The code stringifies the kwargs dict, and
Python dicts print in insertion order, so supplying `a=1, b=2` versus
`b=2, a=1` yields different canonical strings and different MD5 keys: the
code violates the spec's stated invariant at this concrete input. -/
theorem generate_cache_key_kwarg_order_dependent :
    _generate_cache_key "f" [] [("a", .int 1), ("b", .int 2)] "" ≠
      _generate_cache_key "f" [] [("b", .int 2), ("a", .int 1)] "" := by
  decide

/-- C8: shutdown on a BatchProcessingManager drains and releases the workers
(first call) and is a safe no-op on every subsequent call: the source wraps
the executor shutdown in try/except, so the operation is total (it never
raises, by the totality of `shutdown` in the model), and it is idempotent,
leaving the executor in its terminal shut-down state. -/
theorem shutdown_idempotent_no_raise (b : BatchProcessingManager) :
    shutdown b = { b with isShutdown := true } ∧
      shutdown (shutdown b) = shutdown b := by
  simp [shutdown, executorShutdown]

/-- C9: performance_monitor and memory_monitor are transparent wrappers: for
every function and argument the wrapped call's outcome (returned value or
raised exception) is exactly the underlying call's outcome, with the
argument passed through unchanged. -/
theorem monitor_wrappers_transparent (st en sm em : Nat)
    (f : A → Except E B) (a : A) :
    (performance_monitor st en f a).1 = f a ∧
      (memory_monitor sm em f a).1 = f a := by
  cases h : f a <;> simp [performance_monitor, memory_monitor, h]

/-- C5: when the backing store backend raises a connectivity or protocol
error during the operation (a failing Redis client), get_cache returns None
(a miss), set_cache returns False, and delete_cache returns False, each
leaving the manager state unchanged; no backend exception propagates to the
caller (fail-open). -/
theorem cache_ops_fail_open_on_backend_error (m : CacheManager V)
    (r : RedisState V) (key : String) (v : Option V) (ttl : Option Nat)
    (now : Nat) (hr : m.store = .redis r) (hfail : r.failing = true) :
    get_cache m key now = (none, m) ∧
      set_cache m key v ttl now = (false, m) ∧
      delete_cache m key = (false, m) := by
  obtain ⟨t0, store⟩ := m
  simp only [Store.redis.injEq] at hr
  subst hr
  simp [get_cache, set_cache, delete_cache, redisGet, redisSetex, redisDel, hfail]

/-- C10: a falsy ttl argument (Python None, and in particular ttl=0) is
silently replaced by the manager default through the `ttl or self.ttl`
idiom, in set_cache, in cache_model, and in the decorator's store step: the
call behaves exactly as with no ttl argument, and the entry produced carries
`expire_time = now + default`, living for the full default duration rather
than being immediately expired. -/
theorem falsy_ttl_replaced_by_default (m : CacheManager V)
    (mc : List (String × CacheEntry V)) (k : String) (v : Option V)
    (mm : ModelCacheManager M) (name : String) (mdl : M) (kp fname : String)
    (f : PyArgs → Except E (Option V)) (a : PyArgs) (now : Nat)
    (hm : m.store = .memory mc) :
    set_cache m k v (some 0) now = set_cache m k v none now ∧
      (set_cache m k v (some 0) now).2.store =
        .memory (dictSet mc k ⟨v, now + m.ttl⟩) ∧
      cache_model mm name mdl (some 0) now = cache_model mm name mdl none now ∧
      (cache_model mm name mdl (some 0) now).2.model_cache =
        dictSet mm.model_cache name ⟨mdl, now + mm.ttl⟩ ∧
      cache_decorator m (some 0) kp fname f a now =
        cache_decorator m none kp fname f a now := by
  obtain ⟨T, store⟩ := m
  simp only at hm
  subst hm
  refine ⟨?_, ?_, ?_, ?_, ?_⟩ <;>
    simp [set_cache, cache_model, cache_decorator, pyOr]

/-- C10 witness: concrete instantiation, ttl=0 on an empty memory cache. -/
theorem falsy_ttl_replaced_by_default_witness :
    set_cache (⟨3600, .memory []⟩ : CacheManager PyVal) "k" (some (.int 1))
        (some 0) 7 =
      set_cache (⟨3600, .memory []⟩ : CacheManager PyVal) "k" (some (.int 1))
        none 7 :=
  (falsy_ttl_replaced_by_default (⟨3600, .memory []⟩ : CacheManager PyVal) []
    "k" (some (.int 1)) (⟨3600, []⟩ : ModelCacheManager PyVal) "m" (.int 2)
    "" "f" (fun _ => (.ok none : Except Unit (Option PyVal))) ⟨[], []⟩ 7 rfl).1

/-- C6 counterexample: the claim asserts removal-and-miss happens exactly
when `now > expire_at`; the code tests `time.time() < expire_time` for
liveness, so at the boundary instant `now = expire_at` — where the claim
demands the stored value — the entry is removed and a miss reported. -/
theorem get_cache_expiry_boundary_counterexample :
    ¬ ((5 : Nat) > 5) ∧
      (get_cache (⟨3600, .memory [("k", ⟨some (.int 42), 5⟩)]⟩ :
          CacheManager PyVal) "k" 5).1 = none ∧
      (get_cache (⟨3600, .memory [("k", ⟨some (.int 42), 5⟩)]⟩ :
          CacheManager PyVal) "k" 5).2 = ⟨3600, .memory []⟩ := by
  decide

/-- C6 (amended): for the in-process store, get_cache on an existing entry
removes the entry and reports a miss exactly when `now ≥ expire_at` (the
code's liveness test is `now < expire_time`), and otherwise returns the
stored value leaving the state unchanged; after an expired read the entry
count reported by get_cache_stats has decreased by one. -/
theorem get_cache_lazy_expiry (m : CacheManager V)
    (mc : List (String × CacheEntry V)) (k : String) (e : CacheEntry V)
    (now : Nat) (hm : m.store = .memory mc) (hk : dictGet mc k = some e) :
    (e.expire_time ≤ now →
      get_cache m k now = (none, { m with store := .memory (dictDel mc k) }) ∧
      (get_cache_stats m).map CacheStats.cache_size = some mc.length ∧
      (get_cache_stats (get_cache m k now).2).map CacheStats.cache_size =
        some (dictDel mc k).length ∧
      (dictDel mc k).length + 1 = mc.length) ∧
    (now < e.expire_time → get_cache m k now = (e.value, m)) := by
  obtain ⟨T, store⟩ := m
  simp only at hm
  subst hm
  constructor
  · intro hexp
    have hnl : ¬ now < e.expire_time := Nat.not_lt.mpr hexp
    refine ⟨by simp [get_cache, hk, hnl], by simp [get_cache_stats], ?_, ?_⟩
    · simp [get_cache, get_cache_stats, hk, hnl]
    · exact dictDel_length mc k (by simp [hk])
  · intro hlive
    simp [get_cache, hk, hlive]

/-- C6 witness: entry with expire_at 5; an expired read at time 7 removes it
and a live read at time 3 returns the value. -/
theorem get_cache_lazy_expiry_witness :
    get_cache (⟨3600, .memory [("k", ⟨some (.int 1), 5⟩)]⟩ : CacheManager PyVal)
        "k" 7 = (none, ⟨3600, .memory []⟩) ∧
      get_cache (⟨3600, .memory [("k", ⟨some (.int 1), 5⟩)]⟩ : CacheManager PyVal)
        "k" 3 = (some (.int 1), ⟨3600, .memory [("k", ⟨some (.int 1), 5⟩)]⟩) :=
  ⟨((get_cache_lazy_expiry
      (⟨3600, .memory [("k", ⟨some (.int 1), 5⟩)]⟩ : CacheManager PyVal)
      [("k", ⟨some (.int 1), 5⟩)] "k" ⟨some (.int 1), 5⟩
      7 rfl (by decide)).1 (by decide)).1,
    (get_cache_lazy_expiry
      (⟨3600, .memory [("k", ⟨some (.int 1), 5⟩)]⟩ : CacheManager PyVal)
      [("k", ⟨some (.int 1), 5⟩)] "k" ⟨some (.int 1), 5⟩
      3 rfl (by decide)).2 (by decide)⟩

/-- C7 counterexample: the claim asserts the cache state is unchanged by a
failed memoized call; but the lookup performed before invoking the function
lazily evicts an expired entry under the derived key, so a failed call can
change the cache state (here: the expired entry disappears).  The
exception itself does propagate unmodified. -/
theorem memoize_failure_evicts_expired_entry :
    (cache_decorator
        (⟨3600, .memory [(_generate_cache_key "f" [] [] "", ⟨some (.int 1), 1⟩)]⟩ :
          CacheManager PyVal) none "" "f"
        (fun _ => (.error () : Except Unit (Option PyVal))) ⟨[], []⟩ 5).1 =
      .error () ∧
    (cache_decorator
        (⟨3600, .memory [(_generate_cache_key "f" [] [] "", ⟨some (.int 1), 1⟩)]⟩ :
          CacheManager PyVal) none "" "f"
        (fun _ => (.error () : Except Unit (Option PyVal))) ⟨[], []⟩ 5).2.1 ≠
      (⟨3600, .memory [(_generate_cache_key "f" [] [] "", ⟨some (.int 1), 1⟩)]⟩ :
        CacheManager PyVal) := by
  constructor
  · rfl
  · decide

/-- C7 (amended): when the memoized call's lookup misses and the wrapped
function raises, the wrapper propagates the very same exception (nothing is
caught), invokes the function, and stores nothing: the final cache state is
exactly the post-lookup state, which differs from the initial state at most
by the lookup's lazy eviction of an expired entry under the derived key. -/
theorem memoize_propagates_exception_stores_nothing (m : CacheManager V)
    (ttl : Option Nat) (kp fname : String) (f : PyArgs → Except E (Option V))
    (a : PyArgs) (e : E) (now : Nat)
    (hmiss : (get_cache m (_generate_cache_key fname a.args a.kwargs kp) now).1 = none)
    (hf : f a = .error e) :
    cache_decorator m ttl kp fname f a now =
      (.error e,
        (get_cache m (_generate_cache_key fname a.args a.kwargs kp) now).2,
        true) := by
  simp [cache_decorator, hmiss, hf]

/-- C7 witness: empty cache, raising function — error propagates, state
untouched, function invoked. -/
theorem memoize_propagates_exception_witness :
    cache_decorator (⟨3600, .memory []⟩ : CacheManager PyVal) none "" "f"
        (fun _ => (.error () : Except Unit (Option PyVal))) ⟨[], []⟩ 0 =
      (.error (), ⟨3600, .memory []⟩, true) :=
  memoize_propagates_exception_stores_nothing
    (⟨3600, .memory []⟩ : CacheManager PyVal) none "" "f"
    (fun _ => (.error () : Except Unit (Option PyVal))) ⟨[], []⟩ () 0 rfl rfl

/-- C5 witness: a concrete failing backend exercises all three fail-open
branches. -/
theorem cache_ops_fail_open_witness :
    get_cache (⟨3600, .redis ⟨true, []⟩⟩ : CacheManager PyVal) "k" 0 =
        (none, ⟨3600, .redis ⟨true, []⟩⟩) ∧
      set_cache (⟨3600, .redis ⟨true, []⟩⟩ : CacheManager PyVal) "k"
          (some (.int 1)) none 0 = (false, ⟨3600, .redis ⟨true, []⟩⟩) ∧
      delete_cache (⟨3600, .redis ⟨true, []⟩⟩ : CacheManager PyVal) "k" =
        (false, ⟨3600, .redis ⟨true, []⟩⟩) :=
  cache_ops_fail_open_on_backend_error (⟨3600, .redis ⟨true, []⟩⟩ : CacheManager PyVal)
    ⟨true, []⟩ "k" (some (.int 1)) none 0 rfl rfl

theorem listGetQ_map (l : List A) (g : A → B) (j : Nat) :
    (l.map g).get? j = (l.get? j).map g := by
  induction l generalizing j with
  | nil => simp
  | cons hd tl ih => cases j <;> simp [ih]

theorem process_batch_getQ (bpm : BatchProcessingManager) (items : List A)
    (f : A → Except Unit (Option V)) (j : Nat) (it : A)
    (hrun : bpm.isShutdown = false) (hj : items.get? j = some it) :
    (process_batch bpm items f).get? j = some (futureResult (f it)) := by
  rw [process_batch_eq_map bpm items f hrun, listGetQ_map, hj]
  rfl

/-- C4: on a live executor, the list returned by process_batch has the same
length as the input, and its j-th slot is determined by the j-th input item
alone — the task's value on success, the failure marker on exception or
timeout — independent of the order in which the pool completes tasks (the
code collects `future.result()` by iterating the futures in submission
order). -/
theorem process_batch_preserves_length_and_order (bpm : BatchProcessingManager)
    (items : List A) (f : A → Except Unit (Option V))
    (hrun : bpm.isShutdown = false) :
    (process_batch bpm items f).length = items.length ∧
      ∀ (j : Nat) (it : A), items.get? j = some it →
        (process_batch bpm items f).get? j = some (futureResult (f it)) := by
  constructor
  · rw [process_batch_eq_map bpm items f hrun]
    simp
  · intro j it hj
    exact process_batch_getQ bpm items f j it hrun hj

/-- C4 witness: four items on a two-worker pool, doubling function. -/
theorem process_batch_length_witness :
    (process_batch (⟨2, 30, false⟩ : BatchProcessingManager) [1, 2, 3, 4]
      (fun n => (.ok (some (2 * n)) : Except Unit (Option Nat)))).length = 4 :=
  (process_batch_preserves_length_and_order
    (⟨2, 30, false⟩ : BatchProcessingManager) [1, 2, 3, 4]
    (fun n => (.ok (some (2 * n)) : Except Unit (Option Nat))) rfl).1

/-- C3: on a live executor, when the function raises on the item at index i
but succeeds elsewhere, process_batch puts the failure marker None at index
i and the function's return value at every successfully processed index;
the model of process_batch is a total function (the source's outer
try/except means no exception escapes it), so one item's failure neither
aborts nor discards sibling results. -/
theorem process_batch_isolates_item_failure (bpm : BatchProcessingManager)
    (items : List A) (f : A → Except Unit (Option V)) (i : Nat) (bitem : A)
    (hrun : bpm.isShutdown = false) (hb : items.get? i = some bitem)
    (hfail : f bitem = .error ()) :
    (process_batch bpm items f).get? i = some none ∧
      ∀ (j : Nat) (it : A) (v : Option V), items.get? j = some it →
        f it = .ok v → (process_batch bpm items f).get? j = some v := by
  constructor
  · rw [process_batch_getQ bpm items f i bitem hrun hb, hfail]
    rfl
  · intro j it v hj hok
    rw [process_batch_getQ bpm items f j it hrun hj, hok]
    rfl

/-- C3 witness: f raises on the middle item of [1,2,3]; the output holds
the failure marker in the middle and the sibling results in place. -/
theorem process_batch_isolation_witness :
    (process_batch (⟨4, 30, false⟩ : BatchProcessingManager) [1, 2, 3]
        (fun n => if n = 2 then .error () else (.ok (some (10 * n)) :
          Except Unit (Option Nat)))).get? 1 = some none ∧
      (process_batch (⟨4, 30, false⟩ : BatchProcessingManager) [1, 2, 3]
        (fun n => if n = 2 then .error () else (.ok (some (10 * n)) :
          Except Unit (Option Nat)))).get? 0 = some (some 10) :=
  ⟨(process_batch_isolates_item_failure (⟨4, 30, false⟩ : BatchProcessingManager)
      [1, 2, 3] (fun n => if n = 2 then .error () else .ok (some (10 * n)))
      1 2 rfl rfl (by rfl)).1,
    (process_batch_isolates_item_failure (⟨4, 30, false⟩ : BatchProcessingManager)
      [1, 2, 3] (fun n => if n = 2 then .error () else .ok (some (10 * n)))
      1 2 rfl rfl (by rfl)).2 0 1 (some 10) rfl (by rfl)⟩

/-! ### C1: the memoization property of cache_decorator -/

theorem get_cache_memory_state (m : CacheManager V)
    (mc : List (String × CacheEntry V)) (k : String) (now : Nat)
    (hm : m.store = .memory mc) :
    ∃ mc1, (get_cache m k now).2 = ⟨m.ttl, .memory mc1⟩ := by
  obtain ⟨T, store⟩ := m
  simp only at hm
  subst hm
  cases hdg : dictGet mc k with
  | none => exact ⟨mc, by simp [get_cache, hdg]⟩
  | some item =>
      by_cases hl : now < item.expire_time
      · exact ⟨mc, by simp [get_cache, hdg, hl]⟩
      · exact ⟨dictDel mc k, by simp [get_cache, hdg, hl]⟩

theorem cache_decorator_miss_invokes (m : CacheManager V) (ttl : Option Nat)
    (kp fname : String) (f : PyArgs → Except E (Option V)) (a : PyArgs)
    (now : Nat) (res : Option V)
    (hmiss : (get_cache m (_generate_cache_key fname a.args a.kwargs kp) now).1 = none)
    (hf : f a = .ok res) :
    cache_decorator m ttl kp fname f a now =
      (.ok res,
        (set_cache (get_cache m (_generate_cache_key fname a.args a.kwargs kp) now).2
          (_generate_cache_key fname a.args a.kwargs kp) res
          (some (pyOr ttl m.ttl)) now).2,
        true) := by
  simp [cache_decorator, hmiss, hf]

theorem cache_decorator_hit (m : CacheManager V) (ttl : Option Nat)
    (kp fname : String) (f : PyArgs → Except E (Option V)) (a : PyArgs)
    (now : Nat) (w : V)
    (hhit : (get_cache m (_generate_cache_key fname a.args a.kwargs kp) now).1 = some w) :
    cache_decorator m ttl kp fname f a now =
      (.ok (some w),
        (get_cache m (_generate_cache_key fname a.args a.kwargs kp) now).2,
        false) := by
  simp [cache_decorator, hhit]

/-- C1 counterexample: the claim quantifies over every function; for a
wrapped function that (successfully) returns Python None, the stored None
is indistinguishable from a miss (`is not None` test), so calling the
wrapped function twice with equal arguments invokes the underlying function
twice, not once. -/
theorem memoize_none_result_invoked_twice :
    (callTwice (⟨3600, .memory []⟩ : CacheManager PyVal) none "" "f"
        (fun _ => (.ok none : Except Unit (Option PyVal))) ⟨[], []⟩ 0 0).2.2.2 = 2 ∧
      (callTwice (⟨3600, .memory []⟩ : CacheManager PyVal) none "" "f"
        (fun _ => (.ok none : Except Unit (Option PyVal))) ⟨[], []⟩ 0 0).2.2.2 ≠ 1 := by
  constructor
  · decide
  · decide

/-- C1 (amended): for a wrapped function returning a non-None value, on an
in-process store where the derived key initially misses, calling the
wrapped function twice with equal arguments — the second call before the
entry's TTL elapses — invokes the underlying function exactly once; both
calls return the function's value, the second served from the cache. -/
theorem memoize_single_invocation (m : CacheManager V)
    (mc : List (String × CacheEntry V)) (ttl : Option Nat) (kp fname : String)
    (f : PyArgs → Except E (Option V)) (a : PyArgs) (v : V) (t1 t2 : Nat)
    (hm : m.store = .memory mc)
    (hmiss : (get_cache m (_generate_cache_key fname a.args a.kwargs kp) t1).1 = none)
    (hf : f a = .ok (some v))
    (ht : t2 < t1 + pyOr ttl m.ttl) :
    (callTwice m ttl kp fname f a t1 t2).1 = .ok (some v) ∧
      (callTwice m ttl kp fname f a t1 t2).2.1 = .ok (some v) ∧
      (callTwice m ttl kp fname f a t1 t2).2.2.2 = 1 := by
  obtain ⟨mc1, hstate⟩ := get_cache_memory_state m mc
    (_generate_cache_key fname a.args a.kwargs kp) t1 hm
  have h1 := cache_decorator_miss_invokes m ttl kp fname f a t1 (some v) hmiss hf
  rw [hstate] at h1
  simp only [set_cache, pyOr_pyOr] at h1
  have hhit2 : (get_cache
      (⟨m.ttl, .memory (dictSet mc1 (_generate_cache_key fname a.args a.kwargs kp)
        ⟨some v, t1 + pyOr ttl m.ttl⟩)⟩ : CacheManager V)
      (_generate_cache_key fname a.args a.kwargs kp) t2).1 = some v := by
    simp [get_cache, dictGet_dictSet_self, ht]
  have h2 := cache_decorator_hit
    (⟨m.ttl, .memory (dictSet mc1 (_generate_cache_key fname a.args a.kwargs kp)
      ⟨some v, t1 + pyOr ttl m.ttl⟩)⟩ : CacheManager V)
    ttl kp fname f a t2 v hhit2
  simp [callTwice, h1, h2]

/-- C1 witness: fresh memory cache, function returning 10, second call one
time unit later — a single underlying invocation. -/
theorem memoize_single_invocation_witness :
    (callTwice (⟨3600, .memory []⟩ : CacheManager PyVal) none "" "f"
        (fun _ => (.ok (some (.int 10)) : Except Unit (Option PyVal)))
        ⟨[], []⟩ 0 1).2.2.2 = 1 :=
  (memoize_single_invocation (⟨3600, .memory []⟩ : CacheManager PyVal) []
    none "" "f" (fun _ => (.ok (some (.int 10)) : Except Unit (Option PyVal)))
    ⟨[], []⟩ (.int 10) 0 1 rfl rfl rfl (by decide)).2.2

end CacheSpec
